import Mathlib

/-!
Verification of the LightweightEncryption repository: a shallow embedding of
the Azure-CLI wrapper (`scripts/azure_helpers.py`) and of the key-generation
workflow (`scripts/generate_encryptionkeys_azure.py`), together with theorems
settling the specification claims about them.

Python strings are modelled as Lean `String` except in the tag-conversion
development, where `List Char` is used so that list lemmas apply; Python
`None`-able values are `Option`; a raised exception is the `.error` side of
an `Except`.
-/

/-- Python exceptions that can arise in this code base: the four typed
failures of `custom_exceptions.py`, the runtime errors Python itself raises
(TypeError, IndexError, KeyError, AttributeError, ValueError), and the
`tenacity.RetryError` wrapper produced when the retry budget is exhausted. -/
inductive PyErr where
  | azCliServiceUnavailable (msg : String)
  | azCliAccess (msg : String)
  | azCliResourceNotFound (msg : String)
  | azCliExecution (msg : String)
  | typeError (msg : String)
  | indexError (msg : String)
  | keyError (msg : String)
  | attributeError (msg : String)
  | valueError (msg : String)
  | retryError (inner : PyErr)
deriving Repr, DecidableEq

/-- The four typed failures declared in `custom_exceptions.py`. -/
def PyErr.isTypedAzFailure : PyErr → Bool
  | .azCliServiceUnavailable _ => true
  | .azCliAccess _ => true
  | .azCliResourceNotFound _ => true
  | .azCliExecution _ => true
  | _ => false

/-- `AzCliServiceUnavailableException`, the one exception kind the tenacity
decorator on `az` retries (`retry_if_exception_type`). -/
def PyErr.isServiceUnavailable : PyErr → Bool
  | .azCliServiceUnavailable _ => true
  | _ => false

/-- JSON values, as decoded by `json.loads`: `null` decodes to Python `None`,
arrays to lists, objects to dicts with string keys. -/
inductive Json where
  | null
  | bool (b : Bool)
  | num (n : Int)
  | str (s : String)
  | arr (elems : List Json)
  | obj (fields : List (String × Json))

/-- One in-process invocation of the external Azure CLI tool, as observed by
the `az` wrapper: `invoke` either raises `SystemExit` with a code (`sysExit =
some c`) or returns an exit code normally; the captured stdout buffer; and
`az_cli.result.error` rendered as a string (`none` when the result object is
absent or its error is `None`). -/
structure CliInvocation where
  sysExit : Option Int
  exitCode : Int
  output : String
  resultError : Option String

/-- The connection-timeout / max-retries signature against the management
endpoint tested on line 122 of `azure_helpers.py`. -/
def managementTimeoutPattern : String :=
  "HTTPSConnectionPool(host=\x27management.azure.com\x27, port=443): Max retries exceeded with url"

/-- Does the second list occur as a prefix of the first? -/
def listStartsWith : List Char → List Char → Bool
  | _, [] => true
  | [], _ :: _ => false
  | a :: as, b :: bs => a == b && listStartsWith as bs

/-- Does `needle` occur as a contiguous run inside the second list? -/
def listHasSub (needle : List Char) : List Char → Bool
  | [] => needle.isEmpty
  | a :: as => listStartsWith (a :: as) needle || listHasSub needle as

/-- Python substring containment `needle in hay`, on the character
sequences of the two strings. -/
def containsSubstr (hay needle : String) : Bool :=
  listHasSub needle.data hay.data

/-- The test on line 122 of `azure_helpers.py`:
`az_cli.result and pattern in str(az_cli.result.error)`. When the result
object is absent the conjunction is falsy; when its error is `None`,
`str(None) = "None"` does not contain the (non-empty) pattern, which the
`none` branch also covers. -/
def CliInvocation.errorMatchesTimeout (inv : CliInvocation) : Bool :=
  match inv.resultError with
  | some e => containsSubstr e managementTimeoutPattern
  | none => false

/-- One attempt of the `az` wrapper body (`azure_helpers.py` lines 99-146),
before the tenacity retry decorator is applied.  `decode` stands for
`json.loads` returning `none` on a `JSONDecodeError`.  In every `SystemExit`
branch the local `exit_code` is still `0` (the assignment from `invoke`
raised), so the interpolated messages read `Exit Code:0`. -/
def azAttempt (decode : String → Option Json) (inv : CliInvocation) :
    Except PyErr (Option Json) :=
  match inv.sysExit with
  | some code =>
    if code == 3 then
      .error (.azCliResourceNotFound "Exit Code:0")
    else if code == 1 && inv.errorMatchesTimeout then
      .error (.azCliServiceUnavailable "Exit Code:0")
    else
      .error (.azCliExecution "Exit Code:0")
  | none =>
    if !inv.output.isEmpty && inv.exitCode == 0 then
      match decode inv.output with
      | some j => .ok (some j)
      | none => .error (.azCliExecution "Exit Code:0")
    else
      match inv.resultError with
      | some e =>
        if !e.isEmpty then
          .error (.azCliExecution s!"Exit Code:{inv.exitCode}, Result:{e}")
        else
          .ok none
      | none => .ok none

/-- Result of a full `az` call through the tenacity decorator: the value or
propagated error, how many attempts ran, and the total seconds slept between
attempts. -/
structure AzCallResult where
  result : Except PyErr (Option Json)
  attempts : Nat
  waitSeconds : Nat

/-- The tenacity retry loop around `azAttempt`
(`wait_fixed(5)`, `stop_after_attempt(5)`,
`retry_if_exception_type(AzCliServiceUnavailableException)`): a failure that
is not service-unavailable, or a success, ends the loop at once; a
service-unavailable failure sleeps 5 seconds and retries until the attempt
budget is spent, after which tenacity raises `RetryError` wrapping the last
attempt (no sleep after the final attempt).  `invs n` is the outcome of the
external tool on the `n`-th attempt (0-based); `fuel` counts the attempts
still allowed. -/
def azRetryLoop (decode : String → Option Json) (invs : Nat → CliInvocation) :
    Nat → Nat → AzCallResult
  | _, 0 => ⟨.error (.retryError (.azCliServiceUnavailable "")), 0, 0⟩
  | attempt, fuel + 1 =>
    match azAttempt decode (invs attempt) with
    | .ok v => ⟨.ok v, attempt + 1, 0⟩
    | .error e =>
      if e.isServiceUnavailable then
        if fuel == 0 then
          ⟨.error (.retryError e), attempt + 1, 0⟩
        else
          let r := azRetryLoop decode invs (attempt + 1) fuel
          { r with waitSeconds := r.waitSeconds + 5 }
      else
        ⟨.error e, attempt + 1, 0⟩

/-- The `az` wrapper of `azure_helpers.py` as seen by its callers: the body
`azAttempt` run under the tenacity decorator with an attempt budget of 5. -/
def az (decode : String → Option Json) (invs : Nat → CliInvocation) : AzCallResult :=
  azRetryLoop decode invs 0 5

/-- Unfolding lemma: a successful attempt ends the retry loop at once. -/
theorem azRetryLoop_ok (decode : String → Option Json) (invs : Nat → CliInvocation)
    (attempt fuel : Nat) (v : Option Json)
    (h : azAttempt decode (invs attempt) = .ok v) :
    azRetryLoop decode invs attempt (fuel + 1) = ⟨.ok v, attempt + 1, 0⟩ := by
  simp [azRetryLoop, h]

/-- Unfolding lemma: a failure the retry predicate does not select propagates
at once, after a single attempt and with no sleep. -/
theorem azRetryLoop_no_retry (decode : String → Option Json) (invs : Nat → CliInvocation)
    (attempt fuel : Nat) (e : PyErr)
    (h : azAttempt decode (invs attempt) = .error e)
    (hsvc : e.isServiceUnavailable = false) :
    azRetryLoop decode invs attempt (fuel + 1) = ⟨.error e, attempt + 1, 0⟩ := by
  simp [azRetryLoop, h, hsvc]

/-- Unfolding lemma: a service-unavailable failure with budget remaining
sleeps 5 seconds and continues with the next attempt. -/
theorem azRetryLoop_retry_step (decode : String → Option Json) (invs : Nat → CliInvocation)
    (attempt fuel : Nat) (e : PyErr)
    (h : azAttempt decode (invs attempt) = .error e)
    (hsvc : e.isServiceUnavailable = true)
    (hf : (fuel == 0) = false) :
    azRetryLoop decode invs attempt (fuel + 1) =
      { azRetryLoop decode invs (attempt + 1) fuel with
        waitSeconds := (azRetryLoop decode invs (attempt + 1) fuel).waitSeconds + 5 } := by
  simp [azRetryLoop, h, hsvc, hf]

/-- Unfolding lemma: a service-unavailable failure on the last allowed
attempt makes tenacity stop and raise RetryError around it, with no sleep
after the final attempt. -/
theorem azRetryLoop_exhausted (decode : String → Option Json) (invs : Nat → CliInvocation)
    (attempt : Nat) (e : PyErr)
    (h : azAttempt decode (invs attempt) = .error e)
    (hsvc : e.isServiceUnavailable = true) :
    azRetryLoop decode invs attempt 1 = ⟨.error (.retryError e), attempt + 1, 0⟩ := by
  simp [azRetryLoop, h, hsvc]

/-- Branch lemma for `azAttempt`: `SystemExit` with code 3 is classified as
the resource-not-found failure (`azure_helpers.py` lines 118-120). -/
theorem azAttempt_exit3 (decode : String → Option Json) (inv : CliInvocation)
    (h : inv.sysExit = some 3) :
    azAttempt decode inv = .error (.azCliResourceNotFound "Exit Code:0") := by
  rcases inv with ⟨se, ec, out, re⟩
  have hse : se = some 3 := h
  subst hse
  rfl

/-- Branch lemma for `azAttempt`: `SystemExit` with code 1 and a structured
error matching the management-endpoint timeout pattern is classified as the
service-unavailable failure (`azure_helpers.py` lines 122-123). -/
theorem azAttempt_exit1_timeout (decode : String → Option Json) (inv : CliInvocation)
    (h : inv.sysExit = some 1) (hm : inv.errorMatchesTimeout = true) :
    azAttempt decode inv = .error (.azCliServiceUnavailable "Exit Code:0") := by
  rcases inv with ⟨se, ec, out, re⟩
  have hse : se = some 1 := h
  subst hse
  have hm' : CliInvocation.errorMatchesTimeout ⟨some 1, ec, out, re⟩ = true := hm
  simp [azAttempt, hm']

/-- Branch lemma for `azAttempt`: `SystemExit` with code 1 whose structured
error does not match the timeout pattern falls through to the generic
execution failure (`azure_helpers.py` lines 125-126). -/
theorem azAttempt_exit1_other (decode : String → Option Json) (inv : CliInvocation)
    (h : inv.sysExit = some 1) (hm : inv.errorMatchesTimeout = false) :
    azAttempt decode inv = .error (.azCliExecution "Exit Code:0") := by
  rcases inv with ⟨se, ec, out, re⟩
  have hse : se = some 1 := h
  subst hse
  have hm' : CliInvocation.errorMatchesTimeout ⟨some 1, ec, out, re⟩ = false := hm
  simp [azAttempt, hm']

/-- Branch lemma for `azAttempt`: exit code 0 with non-empty output that
decodes as JSON returns the decoded value (`azure_helpers.py` line 135). -/
theorem azAttempt_json_ok (decode : String → Option Json) (inv : CliInvocation)
    (h1 : inv.sysExit = none) (h2 : inv.exitCode = 0)
    (h3 : inv.output.isEmpty = false) (j : Json)
    (hd : decode inv.output = some j) :
    azAttempt decode inv = .ok (some j) := by
  rcases inv with ⟨se, ec, out, re⟩
  have hse : se = none := h1
  subst hse
  have hec : ec = 0 := h2
  subst hec
  have h3' : out.isEmpty = false := h3
  have hd' : decode out = some j := hd
  simp [azAttempt, h3', hd']

/-- Branch lemma for `azAttempt`: exit code 0 with non-empty output that is
not valid JSON raises the generic execution failure
(`azure_helpers.py` lines 136-138). -/
theorem azAttempt_json_bad (decode : String → Option Json) (inv : CliInvocation)
    (h1 : inv.sysExit = none) (h2 : inv.exitCode = 0)
    (h3 : inv.output.isEmpty = false)
    (hd : decode inv.output = none) :
    azAttempt decode inv = .error (.azCliExecution "Exit Code:0") := by
  rcases inv with ⟨se, ec, out, re⟩
  have hse : se = none := h1
  subst hse
  have hec : ec = 0 := h2
  subst hec
  have h3' : out.isEmpty = false := h3
  have hd' : decode out = none := hd
  simp [azAttempt, h3', hd']

/-- Branch lemma for `azAttempt`: exit code 0, empty output and no structured
error returns `None` (`azure_helpers.py` line 146). -/
theorem azAttempt_empty_none (decode : String → Option Json) (inv : CliInvocation)
    (h1 : inv.sysExit = none) (h3 : inv.output = "")
    (he : inv.resultError = none) :
    azAttempt decode inv = .ok none := by
  rcases inv with ⟨se, ec, out, re⟩
  have hse : se = none := h1
  subst hse
  have hout : out = "" := h3
  subst hout
  have hre : re = none := he
  subst hre
  rfl

/-- Branch lemma for `azAttempt`: exit code 0, empty output and a falsy
(empty-string) structured error also returns `None`: the guard on line 142 of
`azure_helpers.py` requires a truthy error. -/
theorem azAttempt_empty_falsy_error (decode : String → Option Json) (inv : CliInvocation)
    (h1 : inv.sysExit = none) (h3 : inv.output = "")
    (he : inv.resultError = some "") :
    azAttempt decode inv = .ok none := by
  rcases inv with ⟨se, ec, out, re⟩
  have hse : se = none := h1
  subst hse
  have hout : out = "" := h3
  subst hout
  have hre : re = some "" := he
  subst hre
  rfl

/-- Branch lemma for `azAttempt`: empty output with a truthy structured error
raises the generic execution failure carrying the exit code and the error
(`azure_helpers.py` lines 142-144). -/
theorem azAttempt_empty_error (decode : String → Option Json) (inv : CliInvocation)
    (h1 : inv.sysExit = none) (h3 : inv.output = "") (e : String)
    (he : inv.resultError = some e) (hne : e.isEmpty = false) :
    azAttempt decode inv = .error (.azCliExecution s!"Exit Code:{inv.exitCode}, Result:{e}") := by
  rcases inv with ⟨se, ec, out, re⟩
  have hse : se = none := h1
  subst hse
  have hout : out = "" := h3
  subst hout
  have hre : re = some e := he
  subst hre
  simp [azAttempt, hne, show ("" : String).isEmpty = true from rfl]

/-- Claim C1: for the command invoker az, a service-unavailable failure
(AzCliServiceUnavailableException) is retried up to 5 attempts with a fixed
5-second delay between attempts — 5 attempts and 4 sleeps of 5 seconds, 20
seconds in all — after which the failure propagates (tenacity re-raises it
wrapped in RetryError); every other failure kind propagates immediately,
after a single attempt and with no delay. -/
theorem az_service_unavailable_retry_policy (decode : String → Option Json)
    (invs : Nat → CliInvocation) :
    ((∀ n, n < 5 → ∃ m, azAttempt decode (invs n) = .error (.azCliServiceUnavailable m)) →
      ∃ m, az decode invs = ⟨.error (.retryError (.azCliServiceUnavailable m)), 5, 20⟩) ∧
    (∀ e, azAttempt decode (invs 0) = .error e → e.isServiceUnavailable = false →
      az decode invs = ⟨.error e, 1, 0⟩) := by
  constructor
  · intro h
    obtain ⟨m0, h0⟩ := h 0 (by norm_num)
    obtain ⟨m1, h1⟩ := h 1 (by norm_num)
    obtain ⟨m2, h2⟩ := h 2 (by norm_num)
    obtain ⟨m3, h3⟩ := h 3 (by norm_num)
    obtain ⟨m4, h4⟩ := h 4 (by norm_num)
    refine ⟨m4, ?_⟩
    have e0 : azRetryLoop decode invs 0 5 =
        { azRetryLoop decode invs 1 4 with
          waitSeconds := (azRetryLoop decode invs 1 4).waitSeconds + 5 } :=
      azRetryLoop_retry_step decode invs 0 4 _ h0 rfl rfl
    have e1 : azRetryLoop decode invs 1 4 =
        { azRetryLoop decode invs 2 3 with
          waitSeconds := (azRetryLoop decode invs 2 3).waitSeconds + 5 } :=
      azRetryLoop_retry_step decode invs 1 3 _ h1 rfl rfl
    have e2 : azRetryLoop decode invs 2 3 =
        { azRetryLoop decode invs 3 2 with
          waitSeconds := (azRetryLoop decode invs 3 2).waitSeconds + 5 } :=
      azRetryLoop_retry_step decode invs 2 2 _ h2 rfl rfl
    have e3 : azRetryLoop decode invs 3 2 =
        { azRetryLoop decode invs 4 1 with
          waitSeconds := (azRetryLoop decode invs 4 1).waitSeconds + 5 } :=
      azRetryLoop_retry_step decode invs 3 1 _ h3 rfl rfl
    have e4 : azRetryLoop decode invs 4 1 =
        ⟨.error (.retryError (.azCliServiceUnavailable m4)), 5, 0⟩ :=
      azRetryLoop_exhausted decode invs 4 _ h4 rfl
    show azRetryLoop decode invs 0 5 = _
    rw [e0, e1, e2, e3, e4]
  · intro e h hsvc
    show azRetryLoop decode invs 0 5 = _
    exact azRetryLoop_no_retry decode invs 0 4 e h hsvc

/-- Fixed JSON decoder for concrete evaluations: it rejects every string. -/
def decodeNone : String → Option Json := fun _ => none

/-- A tool outcome raising SystemExit(1) whose structured error carries the
management-endpoint timeout signature. -/
def svcInvocation : CliInvocation :=
  { sysExit := some 1, exitCode := 0, output := "", resultError := some managementTimeoutPattern }

/-- A tool outcome raising SystemExit(2), with no structured error. -/
def exit2Invocation : CliInvocation :=
  { sysExit := some 2, exitCode := 0, output := "", resultError := none }

/-- Witness for claim C1: a persistently unavailable service exhausts the 5
attempts and 20 seconds of delay, while a SystemExit(2) failure propagates
after one attempt with no delay. -/
theorem az_service_unavailable_retry_policy_witness :
    (∃ m, az decodeNone (fun _ => svcInvocation) =
        ⟨.error (.retryError (.azCliServiceUnavailable m)), 5, 20⟩) ∧
    az decodeNone (fun _ => exit2Invocation) = ⟨.error (.azCliExecution "Exit Code:0"), 1, 0⟩ :=
  ⟨(az_service_unavailable_retry_policy decodeNone (fun _ => svcInvocation)).1
      (fun _ _ => ⟨"Exit Code:0", azAttempt_exit1_timeout decodeNone svcInvocation rfl (by rfl)⟩),
    (az_service_unavailable_retry_policy decodeNone (fun _ => exit2Invocation)).2
      (.azCliExecution "Exit Code:0") (by rfl) rfl⟩

/-- Claim C2: whenever the external tool exits with exit code 3 (the "not
found" code), the wrapper raises AzCliResourceNotFoundException — never the
generic execution failure — and does so after a single attempt. -/
theorem az_exit_code_3_raises_resource_not_found (decode : String → Option Json)
    (invs : Nat → CliInvocation) (h : (invs 0).sysExit = some 3) :
    az decode invs = ⟨.error (.azCliResourceNotFound "Exit Code:0"), 1, 0⟩ := by
  show azRetryLoop decode invs 0 5 = _
  exact azRetryLoop_no_retry decode invs 0 4 _ (azAttempt_exit3 decode (invs 0) h) rfl

/-- A tool outcome raising SystemExit(3), the not-found code. -/
def exit3Invocation : CliInvocation :=
  { sysExit := some 3, exitCode := 0, output := "", resultError := none }

/-- Witness for claim C2 at the concrete SystemExit(3) outcome. -/
theorem az_exit_code_3_raises_resource_not_found_witness :
    az decodeNone (fun _ => exit3Invocation) =
      ⟨.error (.azCliResourceNotFound "Exit Code:0"), 1, 0⟩ :=
  az_exit_code_3_raises_resource_not_found decodeNone (fun _ => exit3Invocation) rfl

/-- Claim C4: an exit code 1 whose structured error message contains the
connection-timeout / max-retries pattern against the management endpoint is
classified as the service-unavailable (transient) failure, and an exit code 1
whose message does not match the pattern raises the generic execution
failure instead. -/
theorem az_exit_code_1_classification (decode : String → Option Json)
    (inv : CliInvocation) (h : inv.sysExit = some 1) :
    (inv.errorMatchesTimeout = true →
      azAttempt decode inv = .error (.azCliServiceUnavailable "Exit Code:0")) ∧
    (inv.errorMatchesTimeout = false →
      azAttempt decode inv = .error (.azCliExecution "Exit Code:0")) :=
  ⟨fun hm => azAttempt_exit1_timeout decode inv h hm,
   fun hm => azAttempt_exit1_other decode inv h hm⟩

/-- A tool outcome raising SystemExit(1) whose structured error does not
match the timeout pattern. -/
def exit1PlainInvocation : CliInvocation :=
  { sysExit := some 1, exitCode := 0, output := "", resultError := some "boom" }

/-- Witness for claim C4: the matching outcome is classified service
unavailable, the non-matching one generic execution failure. -/
theorem az_exit_code_1_classification_witness :
    azAttempt decodeNone svcInvocation = .error (.azCliServiceUnavailable "Exit Code:0") ∧
    azAttempt decodeNone exit1PlainInvocation = .error (.azCliExecution "Exit Code:0") :=
  ⟨(az_exit_code_1_classification decodeNone svcInvocation rfl).1 (by rfl),
   (az_exit_code_1_classification decodeNone exit1PlainInvocation rfl).2 (by rfl)⟩

/-- Claim C5: on exit code 0 with non-empty captured output, the wrapper
parses the output as JSON and returns the decoded value; if the output is not
valid JSON it raises the generic execution failure.  Either way a single
attempt runs. -/
theorem az_exit_code_0_json_output (decode : String → Option Json)
    (invs : Nat → CliInvocation)
    (h1 : (invs 0).sysExit = none) (h2 : (invs 0).exitCode = 0)
    (h3 : (invs 0).output.isEmpty = false) :
    (∀ j, decode ((invs 0).output) = some j → az decode invs = ⟨.ok (some j), 1, 0⟩) ∧
    (decode ((invs 0).output) = none →
      az decode invs = ⟨.error (.azCliExecution "Exit Code:0"), 1, 0⟩) := by
  constructor
  · intro j hd
    show azRetryLoop decode invs 0 5 = _
    exact azRetryLoop_ok decode invs 0 4 _ (azAttempt_json_ok decode (invs 0) h1 h2 h3 j hd)
  · intro hd
    show azRetryLoop decode invs 0 5 = _
    exact azRetryLoop_no_retry decode invs 0 4 _
      (azAttempt_json_bad decode (invs 0) h1 h2 h3 hd) rfl

/-- A tool outcome returning exit code 0 with captured output (two bracket
characters). -/
def jsonOutputInvocation : CliInvocation :=
  { sysExit := none, exitCode := 0, output := "[]", resultError := none }

/-- A decoder accepting exactly the output of `jsonOutputInvocation`. -/
def decodeBrackets : String → Option Json :=
  fun s => if s = "[]" then some (.arr []) else none

/-- Witness for claim C5: with a decoder that accepts the output the value is
returned; with one that rejects it the generic execution failure is raised. -/
theorem az_exit_code_0_json_output_witness :
    az decodeBrackets (fun _ => jsonOutputInvocation) = ⟨.ok (some (.arr [])), 1, 0⟩ ∧
    az decodeNone (fun _ => jsonOutputInvocation) =
      ⟨.error (.azCliExecution "Exit Code:0"), 1, 0⟩ :=
  ⟨(az_exit_code_0_json_output decodeBrackets (fun _ => jsonOutputInvocation) rfl rfl rfl).1
      (.arr []) (by rfl),
   (az_exit_code_0_json_output decodeNone (fun _ => jsonOutputInvocation) rfl rfl rfl).2 rfl⟩

/-- Claim C6: on exit code 0 with empty captured output and no (truthy)
structured error the wrapper returns the empty result None without raising;
with a truthy structured error it raises the generic execution failure. -/
theorem az_exit_code_0_empty_output (decode : String → Option Json)
    (invs : Nat → CliInvocation)
    (h1 : (invs 0).sysExit = none) (h2 : (invs 0).exitCode = 0)
    (h3 : (invs 0).output = "") :
    ((invs 0).resultError = none → az decode invs = ⟨.ok none, 1, 0⟩) ∧
    ((invs 0).resultError = some "" → az decode invs = ⟨.ok none, 1, 0⟩) ∧
    (∀ e, (invs 0).resultError = some e → e.isEmpty = false →
      az decode invs =
        ⟨.error (.azCliExecution s!"Exit Code:{(0 : Int)}, Result:{e}"), 1, 0⟩) := by
  refine ⟨?_, ?_, ?_⟩
  · intro he
    show azRetryLoop decode invs 0 5 = _
    exact azRetryLoop_ok decode invs 0 4 _ (azAttempt_empty_none decode (invs 0) h1 h3 he)
  · intro he
    show azRetryLoop decode invs 0 5 = _
    exact azRetryLoop_ok decode invs 0 4 _
      (azAttempt_empty_falsy_error decode (invs 0) h1 h3 he)
  · intro e he hne
    have ha := azAttempt_empty_error decode (invs 0) h1 h3 e he hne
    rw [h2] at ha
    show azRetryLoop decode invs 0 5 = _
    exact azRetryLoop_no_retry decode invs 0 4 _ ha rfl

/-- A tool outcome returning exit code 0 with empty output and no error. -/
def emptyOkInvocation : CliInvocation :=
  { sysExit := none, exitCode := 0, output := "", resultError := none }

/-- A tool outcome returning exit code 0 with empty output and a truthy
structured error. -/
def emptyErrInvocation : CliInvocation :=
  { sysExit := none, exitCode := 0, output := "", resultError := some "bad request" }

/-- Witness for claim C6 at the two concrete outcomes. -/
theorem az_exit_code_0_empty_output_witness :
    az decodeNone (fun _ => emptyOkInvocation) = ⟨.ok none, 1, 0⟩ ∧
    az decodeNone (fun _ => emptyErrInvocation) =
      ⟨.error (.azCliExecution "Exit Code:0, Result:bad request"), 1, 0⟩ :=
  ⟨(az_exit_code_0_empty_output decodeNone (fun _ => emptyOkInvocation) rfl rfl rfl).1 rfl,
   (az_exit_code_0_empty_output decodeNone (fun _ => emptyErrInvocation) rfl rfl rfl).2.2
      "bad request" rfl rfl⟩

/-- Python subscripting `x[0]` on a value decoded from JSON: lists yield
their first element (IndexError when empty), strings yield their first
character as a one-character string (IndexError when empty), dicts decoded
from JSON have string keys so integer lookup raises KeyError, and `None`,
booleans and numbers are not subscriptable (TypeError). -/
def pyGetItem0 : Json → Except PyErr Json
  | .arr [] => .error (.indexError "list index out of range")
  | .arr (x :: _) => .ok x
  | .str s =>
    match s.data with
    | [] => .error (.indexError "string index out of range")
    | c :: _ => .ok (.str (String.mk [c]))
  | .obj _ => .error (.keyError "0")
  | .null => .error (.typeError "NoneType object is not subscriptable")
  | .bool _ => .error (.typeError "bool object is not subscriptable")
  | .num _ => .error (.typeError "int object is not subscriptable")

/-- The Python expression `x.split(chr(47))[-1]`: only strings have the
`split` attribute (AttributeError otherwise), and splitting always yields a
non-empty list, whose last element `[-1]` selects. -/
def pySplitSlashLast : Json → Except PyErr String
  | .str s => .ok (String.mk ((s.data.splitOn '/').getLastD []))
  | .null => .error (.attributeError "NoneType object has no attribute split")
  | .bool _ => .error (.attributeError "bool object has no attribute split")
  | .num _ => .error (.attributeError "int object has no attribute split")
  | .arr _ => .error (.attributeError "list object has no attribute split")
  | .obj _ => .error (.attributeError "dict object has no attribute split")

/-- `set_secret_and_get_secret_version` (`azure_helpers.py` lines 53-66):
`set_secret` forwards its arguments to `az` and hands back its value, and the
function then evaluates `secret_id_list[0].split(chr(47))[-1]` on it.  The
argument here is the outcome of that underlying `az` call: an exception it
raised, or the decoded JSON value (`none` for Python `None`). -/
def set_secret_and_get_secret_version (setSecretResult : Except PyErr (Option Json)) :
    Except PyErr String :=
  match setSecretResult with
  | .error e => .error e
  | .ok none => .error (.typeError "NoneType object is not subscriptable")
  | .ok (some j) =>
    match pyGetItem0 j with
    | .error e => .error e
    | .ok x => pySplitSlashLast x

/-- Counterexample to claim C10 as stated: when `set_secret` returns the
JSON string of the two characters a and b — not a non-empty list —
`set_secret_and_get_secret_version` still returns a value: Python string
subscripting yields the first character, a one-character string, whose
split-then-last is that character itself. -/
theorem set_secret_version_nonlist_counterexample :
    set_secret_and_get_secret_version (.ok (some (.str "ab"))) = .ok "a" := rfl

/-- Claim C10, amended: `set_secret_and_get_secret_version` returns a version
string only when the value `set_secret` returned subscripts to a string —
a non-empty list whose first element is a string, or itself a non-empty
string; and when the underlying az call yields the empty result None, the
subscript raises an unclassified TypeError, which is not one of the four
typed failures. -/
theorem set_secret_version_requires_subscriptable (r : Except PyErr (Option Json)) :
    (∀ v, set_secret_and_get_secret_version r = .ok v →
      (∃ x rest, r = .ok (some (.arr (.str x :: rest)))) ∨
      (∃ c cs, r = .ok (some (.str (String.mk (c :: cs)))))) ∧
    (r = .ok none →
      set_secret_and_get_secret_version r =
          .error (.typeError "NoneType object is not subscriptable") ∧
      (PyErr.typeError "NoneType object is not subscriptable").isTypedAzFailure = false) := by
  constructor
  · intro v h
    cases r with
    | error e => simp [set_secret_and_get_secret_version] at h
    | ok o =>
      cases o with
      | none => simp [set_secret_and_get_secret_version] at h
      | some j =>
        cases j with
        | null => simp [set_secret_and_get_secret_version, pyGetItem0] at h
        | bool b => simp [set_secret_and_get_secret_version, pyGetItem0] at h
        | num n => simp [set_secret_and_get_secret_version, pyGetItem0] at h
        | obj fs => simp [set_secret_and_get_secret_version, pyGetItem0] at h
        | str s =>
          rcases s with ⟨sd⟩
          cases sd with
          | nil => simp [set_secret_and_get_secret_version, pyGetItem0] at h
          | cons c cs => exact .inr ⟨c, cs, rfl⟩
        | arr xs =>
          cases xs with
          | nil => simp [set_secret_and_get_secret_version, pyGetItem0] at h
          | cons x rest =>
            cases x with
            | str s => exact .inl ⟨s, rest, rfl⟩
            | null =>
              simp [set_secret_and_get_secret_version, pyGetItem0, pySplitSlashLast] at h
            | bool b =>
              simp [set_secret_and_get_secret_version, pyGetItem0, pySplitSlashLast] at h
            | num n =>
              simp [set_secret_and_get_secret_version, pyGetItem0, pySplitSlashLast] at h
            | arr ys =>
              simp [set_secret_and_get_secret_version, pyGetItem0, pySplitSlashLast] at h
            | obj fs =>
              simp [set_secret_and_get_secret_version, pyGetItem0, pySplitSlashLast] at h
  · intro h
    subst h
    exact ⟨rfl, rfl⟩

/-- Witness for the amended claim C10, at the empty result: the TypeError is
raised and it is not one of the four typed failures. -/
theorem set_secret_version_requires_subscriptable_witness :
    set_secret_and_get_secret_version (.ok none) =
        .error (.typeError "NoneType object is not subscriptable") ∧
    (PyErr.typeError "NoneType object is not subscriptable").isTypedAzFailure = false :=
  (set_secret_version_requires_subscriptable (.ok none)).2 rfl

/-- A Python datetime at the precision this code observes: a calendar date
plus the time of day in microseconds — zero for values built by strptime
with a pure-date format, almost always positive for `datetime.now()`. -/
structure PyDateTime where
  year : Nat
  month : Nat
  day : Nat
  microsOfDay : Nat
deriving Repr, DecidableEq

/-- Python datetime comparison, lexicographic on (date, time of day). -/
def pyDateTimeLt (a b : PyDateTime) : Bool :=
  Nat.blt a.year b.year ||
    (a.year == b.year && (Nat.blt a.month b.month ||
      (a.month == b.month && (Nat.blt a.day b.day ||
        (a.day == b.day && Nat.blt a.microsOfDay b.microsOfDay)))))

/-- The numeric value of a decimal digit character, if it is one. -/
def digitVal (c : Char) : Option Nat :=
  if c.isDigit then some (c.toNat - 48) else none

/-- The strptime directive for the year in a pure-date format: exactly four
decimal digits. -/
def parseYear4 : List Char → Option (Nat × List Char)
  | a :: b :: c :: d :: rest => do
    let x ← digitVal a
    let y ← digitVal b
    let z ← digitVal c
    let w ← digitVal d
    pure (((x * 10 + y) * 10 + z) * 10 + w, rest)
  | _ => none

/-- The strptime directive for the month: one or two digits denoting a month
from 1 to 12 — a leading one joins a following 0, 1 or 2, a leading zero
requires a non-zero second digit, and any other single digit 1-9 stands
alone. -/
def parseMonth : List Char → Option (Nat × List Char)
  | '1' :: c :: rest =>
    if c == '0' || c == '1' || c == '2' then some (10 + (c.toNat - 48), rest)
    else some (1, c :: rest)
  | ['1'] => some (1, [])
  | '0' :: c :: rest =>
    if '1' ≤ c ∧ c ≤ '9' then some (c.toNat - 48, rest) else none
  | ['0'] => none
  | c :: rest =>
    if '2' ≤ c ∧ c ≤ '9' then some (c.toNat - 48, rest) else none
  | [] => none

/-- The strptime directive for the day: one or two digits denoting a day
from 1 to 31 — a leading 3 joins a following 0 or 1, a leading 1 or 2 joins
any following digit, a leading zero requires a non-zero second digit. -/
def parseDay : List Char → Option (Nat × List Char)
  | '3' :: c :: rest =>
    if c == '0' || c == '1' then some (30 + (c.toNat - 48), rest)
    else some (3, c :: rest)
  | ['3'] => some (3, [])
  | '1' :: c :: rest =>
    if c.isDigit then some (10 + (c.toNat - 48), rest) else some (1, c :: rest)
  | ['1'] => some (1, [])
  | '2' :: c :: rest =>
    if c.isDigit then some (20 + (c.toNat - 48), rest) else some (2, c :: rest)
  | ['2'] => some (2, [])
  | '0' :: c :: rest =>
    if '1' ≤ c ∧ c ≤ '9' then some (c.toNat - 48, rest) else none
  | ['0'] => none
  | c :: rest =>
    if '4' ≤ c ∧ c ≤ '9' then some (c.toNat - 48, rest) else none
  | [] => none

/-- Gregorian leap years, as Python datetime uses. -/
def isLeapYear (y : Nat) : Bool :=
  (y % 4 == 0 && y % 100 != 0) || y % 400 == 0

/-- Length of a month of a given year, as Python datetime uses. -/
def daysInMonth (y m : Nat) : Nat :=
  if m == 2 then (if isLeapYear y then 29 else 28)
  else if m == 4 || m == 6 || m == 9 || m == 11 then 30
  else 31

/-- `datetime.strptime(date, ...)` for the pure-date format used by
`validate_date`: four year digits, a dash, a one- or two-digit month, a
dash, a one- or two-digit day, and nothing left over; the datetime
constructor then requires the year to be at least MINYEAR = 1 and the day to
fit the month, raising ValueError otherwise.  The result carries a zero time
of day. -/
def strptimeYMD (date : String) : Option PyDateTime :=
  match parseYear4 date.data with
  | none => none
  | some (y, r1) =>
    match r1 with
    | '-' :: r2 =>
      match parseMonth r2 with
      | none => none
      | some (m, r3) =>
        match r3 with
        | '-' :: r4 =>
          match parseDay r4 with
          | none => none
          | some (d, r5) =>
            if r5 = [] ∧ 1 ≤ y ∧ d ≤ daysInMonth y m then
              some ⟨y, m, d, 0⟩
            else none
        | _ => none
    | _ => none

/-- `validate_date` (`generate_encryptionkeys_azure.py` lines 30-40): a date
string that fails to parse, or parses strictly before the current datetime,
makes the script log an error and exit with status 1 (`sys.exit(1)` raises
SystemExit, which the `except ValueError` clause does not catch). -/
def validate_date (now : PyDateTime) (date : String) : Except Nat Unit :=
  match strptimeYMD date with
  | none => .error 1
  | some d => if pyDateTimeLt d now then .error 1 else .ok ()

/-- Python dict assignment `d[k] = v`: an existing key keeps its position
and takes the new value; a new key is appended at the end. -/
def dictInsert (d : List (List Char × List Char)) (k v : List Char) :
    List (List Char × List Char) :=
  if d.any (fun p => p.1 == k) then
    d.map (fun p => if p.1 == k then (p.1, v) else p)
  else
    d ++ [(k, v)]

/-- The loop of `convert_tags`: each comma-separated piece must split on the
equals sign into exactly a key and a value (the tuple unpacking
`key, value = ...` raises ValueError otherwise), and the pair is stored in
the dict built so far. -/
def convertTagsLoop (parts : List (List Char)) (d : List (List Char × List Char)) :
    Except PyErr (List (List Char × List Char)) :=
  match parts with
  | [] => .ok d
  | t :: ts =>
    match t.splitOn '=' with
    | [k, v] => convertTagsLoop ts (dictInsert d k v)
    | _ => .error (.valueError "not enough values to unpack")

/-- `convert_tags` (`generate_encryptionkeys_azure.py` lines 42-51), on the
character sequence of the tag string. -/
def convert_tags (tags : List Char) : Except PyErr (List (List Char × List Char)) :=
  convertTagsLoop (tags.splitOn ',') []

/-- The serialisation the round-trip claim compares against: the pairs
rendered key=value and joined with commas. -/
def serializeTags (ps : List (List Char × List Char)) : List Char :=
  List.intercalate [','] (ps.map (fun p => p.1 ++ '=' :: p.2))

/-- Module-level default secret name (`generate_encryptionkeys_azure.py`
line 19). -/
def DEFAULT_ENCRYPTION_KEY_NAME : String := "secret--encryption--symmetricKey"

/-- Module-level default version-secret name (line 20). -/
def DEFAULT_ENCRYPTION_KEY_VERSION_NAME : String := "secret--encryption--symmetricKeyVersion"

/-- The argparse namespace handed to `generate_encryption_keys`: the four
required flags are strings; the five optional ones are a string when given
on the command line and `None` otherwise. -/
structure Args where
  subscription_id : String
  resource_group : String
  location : String
  vault_name : String
  key_name : Option String
  key_version_name : Option String
  expiration : Option String
  tags : Option String
  dry_run : Option String

/-- Python truthiness of an optional string: `None` and the empty string are
falsy; every other string is truthy. -/
def pyTruthyOpt : Option String → Bool
  | none => false
  | some s => !s.isEmpty

/-- The value of the `dry_run` local on line 65: the conditional expression
keeps the argument string when it is truthy and yields the boolean `True`
otherwise, so the local is either `True` or a non-empty string. -/
inductive DryRunVal where
  | pyTrue
  | pyStr (s : String)
deriving Repr, DecidableEq

/-- Line 65 of `generate_encryptionkeys_azure.py`:
`args.dry_run if args.dry_run else True`. -/
def compute_dry_run (dryRunArg : Option String) : DryRunVal :=
  if pyTruthyOpt dryRunArg then .pyStr (dryRunArg.getD "") else .pyTrue

/-- Python truthiness of the `dry_run` local: `True` is truthy and a string
is truthy when non-empty. -/
def DryRunVal.truthy : DryRunVal → Bool
  | .pyTrue => true
  | .pyStr s => !s.isEmpty

/-- The collaborators of one workflow run, fixed up front: the current
datetime, the login name `os.getlogin()`, the generated key material
`secrets.token_hex(32)`, the module-level default expiration (computed
when the module loads, from now + 90 days), and the outcome each az-backed
helper would produce were it called. -/
structure Env where
  now : PyDateTime
  login : String
  keyHex : String
  defaultExpiration : String
  selectSubscriptionOutcome : Except PyErr Unit
  groupExistsOutcome : Except PyErr Bool
  vaultExistsOutcome : Except PyErr Bool
  setSecretKeyOutcome : Except PyErr (Option Json)
  setSecretVersionOutcome : Except PyErr (Option Json)

/-- The observable az-backed operations the workflow can invoke. -/
inductive AzOp where
  | selectSubscriptionOp (subscription : String)
  | groupExistsOp (resourceGroup : String)
  | vaultExistsOp (resourceGroup vaultName : String)
  | setSecretOp (vault name value contentType expiration : String)

/-- How one run of `generate_encryption_keys` ends: a `sys.exit`, the return
at the dry-run branch, the success message at the end, or an uncaught
exception propagating to the caller. -/
inductive Outcome where
  | exited (code : Nat)
  | dryRunReturn (keyName key : String)
  | completed (keyName keyVersionName : String)
  | raised (e : PyErr)

/-- Line 61: the effective key name. -/
def effectiveKeyName (args : Args) : String :=
  if pyTruthyOpt args.key_name then args.key_name.getD "" else DEFAULT_ENCRYPTION_KEY_NAME

/-- Line 62: the effective key-version name. -/
def effectiveKeyVersionName (args : Args) : String :=
  if pyTruthyOpt args.key_version_name then args.key_version_name.getD ""
  else DEFAULT_ENCRYPTION_KEY_VERSION_NAME

/-- Line 63: the effective expiration string, the argument when truthy and
the module-level default otherwise. -/
def effectiveExpiration (env : Env) (args : Args) : String :=
  if pyTruthyOpt args.expiration then args.expiration.getD "" else env.defaultExpiration

/-- Line 64: the tags value — `convert_tags` of a truthy tags argument, and
otherwise the singleton dict from the word user to the login name. -/
def computeTags (env : Env) (args : Args) : Except PyErr (List (List Char × List Char)) :=
  if pyTruthyOpt args.tags then convert_tags (args.tags.getD "").data
  else .ok [("user".data, env.login.data)]

/-- `generate_encryption_keys` (`generate_encryptionkeys_azure.py` lines
53-104), returning the outcome together with the trace of az-backed
operations invoked, in order.  The source computes the effective settings
(lines 57-65, where `validate_date` can exit and `convert_tags` can raise),
generates the key material, returns at the dry-run branch when `dry_run` is
truthy, and otherwise selects the subscription, checks group and vault
existence (exiting with status 1 on a missing one), and writes the two
secrets through `set_secret_and_get_secret_version`. -/
def generate_encryption_keys (env : Env) (args : Args) : Outcome × List AzOp :=
  let key_name := effectiveKeyName args
  let key_version_name := effectiveKeyVersionName args
  let expiration := effectiveExpiration env args
  match validate_date env.now expiration with
  | .error c => (.exited c, [])
  | .ok _ =>
    match computeTags env args with
    | .error e => (.raised e, [])
    | .ok _tags =>
      let dry_run := compute_dry_run args.dry_run
      let key := env.keyHex
      if dry_run.truthy then
        (.dryRunReturn key_name key, [])
      else
        let t0 : List AzOp := [.selectSubscriptionOp args.subscription_id]
        match env.selectSubscriptionOutcome with
        | .error e => (.raised e, t0)
        | .ok _ =>
          let t1 := t0 ++ [.groupExistsOp args.resource_group]
          match env.groupExistsOutcome with
          | .error e => (.raised e, t1)
          | .ok ge =>
            if !ge then (.exited 1, t1)
            else
              let t2 := t1 ++ [.vaultExistsOp args.resource_group args.vault_name]
              match env.vaultExistsOutcome with
              | .error e => (.raised e, t2)
              | .ok ve =>
                if !ve then (.exited 1, t2)
                else
                  let t3 := t2 ++ [.setSecretOp args.vault_name key_name key
                    "application/octet-stream" expiration]
                  match set_secret_and_get_secret_version env.setSecretKeyOutcome with
                  | .error e => (.raised e, t3)
                  | .ok key_id =>
                    let t4 := t3 ++ [.setSecretOp args.vault_name key_version_name key_id
                      "application/octet-stream" expiration]
                    match set_secret_and_get_secret_version env.setSecretVersionOutcome with
                    | .error e => (.raised e, t4)
                    | .ok _ => (.completed key_name key_version_name, t4)

/-- The computed dry_run value is truthy for every possible argument. -/
theorem compute_dry_run_truthy (o : Option String) : (compute_dry_run o).truthy = true := by
  cases o with
  | none => rfl
  | some s =>
    cases hs : s.isEmpty with
    | true => simp [compute_dry_run, pyTruthyOpt, DryRunVal.truthy, hs]
    | false => simp [compute_dry_run, pyTruthyOpt, DryRunVal.truthy, hs]

/-- `validate_date` only ever exits with status 1. -/
theorem validate_date_error_eq (now : PyDateTime) (date : String) (c : Nat)
    (h : validate_date now date = .error c) : c = 1 := by
  unfold validate_date at h
  split at h
  · injection h with h1
    exact h1.symm
  · split at h
    · injection h with h1
      exact h1.symm
    · cases h

/-- Since dry_run is always truthy, every run exits during validation,
raises during tag conversion, or returns at the dry-run branch — each with
an empty operation trace. -/
theorem generate_encryption_keys_cases (env : Env) (args : Args) :
    generate_encryption_keys env args = (.exited 1, []) ∨
    (∃ e, generate_encryption_keys env args = (.raised e, [])) ∨
    generate_encryption_keys env args =
      (.dryRunReturn (effectiveKeyName args) env.keyHex, []) := by
  rcases hv : validate_date env.now (effectiveExpiration env args) with c | u
  · left
    have hc := validate_date_error_eq env.now (effectiveExpiration env args) c hv
    subst hc
    simp [generate_encryption_keys, hv]
  · rcases ht : computeTags env args with e | tg
    · right; left
      exact ⟨e, by simp [generate_encryption_keys, hv, ht]⟩
    · right; right
      simp [generate_encryption_keys, hv, ht, compute_dry_run_truthy]

/-- Claim C3: for every argument object the computed dry_run value is truthy
(absent and empty map to True, any other string — "false" included — is
itself truthy), so the workflow never invokes select_subscription,
group_exists, vault_exists or set_secret_and_get_secret_version — its
operation trace is always empty — and every run that survives validation
and tag conversion returns at the dry-run branch. -/
theorem generate_keys_always_dry_run :
    (∀ o : Option String, (compute_dry_run o).truthy = true) ∧
    (∀ env args, (generate_encryption_keys env args).2 = []) ∧
    (∀ env args,
      (generate_encryption_keys env args).1 = .exited 1 ∨
      (∃ e, (generate_encryption_keys env args).1 = .raised e) ∨
      (generate_encryption_keys env args).1 =
        .dryRunReturn (effectiveKeyName args) env.keyHex) := by
  refine ⟨compute_dry_run_truthy, ?_, ?_⟩
  · intro env args
    rcases generate_encryption_keys_cases env args with h | ⟨e, h⟩ | h <;> rw [h]
  · intro env args
    rcases generate_encryption_keys_cases env args with h | ⟨e, h⟩ | h
    · left; rw [h]
    · right; left; exact ⟨e, by rw [h]⟩
    · right; right; rw [h]

/-- Claim C7: a dry-run pass through the workflow that survives input
validation returns at the dry-run branch with an empty operation trace: no
account selection, no existence check, no secret write — external state is
untouched. -/
theorem dry_run_invokes_no_secret_store (env : Env) (args : Args)
    (hv : validate_date env.now (effectiveExpiration env args) = .ok ())
    (ht : ∃ tg, computeTags env args = .ok tg) :
    generate_encryption_keys env args =
      (.dryRunReturn (effectiveKeyName args) env.keyHex, []) := by
  obtain ⟨tg, ht⟩ := ht
  simp [generate_encryption_keys, hv, ht, compute_dry_run_truthy]

/-- A concrete argparse namespace: required flags set, optional ones mostly
absent, expiration far in the future. -/
def sampleArgs : Args :=
  { subscription_id := "sub", resource_group := "rg", location := "west"
    vault_name := "vault", key_name := none, key_version_name := none
    expiration := some "2099-01-01", tags := none, dry_run := none }

/-- A concrete environment: mid-October 2026, shortly after midnight. -/
def sampleEnv : Env :=
  { now := ⟨2026, 10, 12, 1⟩, login := "alice", keyHex := "abc123"
    defaultExpiration := "2027-01-10", selectSubscriptionOutcome := .ok ()
    groupExistsOutcome := .ok true, vaultExistsOutcome := .ok true
    setSecretKeyOutcome := .ok none, setSecretVersionOutcome := .ok none }

/-- Witness for claim C7 at the concrete environment and arguments. -/
theorem dry_run_invokes_no_secret_store_witness :
    generate_encryption_keys sampleEnv sampleArgs =
      (.dryRunReturn DEFAULT_ENCRYPTION_KEY_NAME "abc123", []) :=
  dry_run_invokes_no_secret_store sampleEnv sampleArgs rfl
    ⟨[("user".data, "alice".data)], rfl⟩

/-- Claim C8: the expiration input must parse in the four-digit-year
dash month dash day format and be strictly in the future; a malformed or
past date makes the run exit with status 1 with an empty operation trace —
before select_subscription or any secret-store operation — and a run that
passes validation parsed a date not earlier than the current datetime. -/
theorem expiration_rejected_before_network (env : Env) (args : Args) :
    (∀ d, strptimeYMD (effectiveExpiration env args) = some d →
      pyDateTimeLt d env.now = true →
      generate_encryption_keys env args = (.exited 1, [])) ∧
    (strptimeYMD (effectiveExpiration env args) = none →
      generate_encryption_keys env args = (.exited 1, [])) ∧
    (validate_date env.now (effectiveExpiration env args) = .ok () →
      ∃ d, strptimeYMD (effectiveExpiration env args) = some d ∧
        pyDateTimeLt d env.now = false) := by
  refine ⟨?_, ?_, ?_⟩
  · intro d hd hlt
    have hv : validate_date env.now (effectiveExpiration env args) = .error 1 := by
      simp [validate_date, hd, hlt]
    simp [generate_encryption_keys, hv]
  · intro hd
    have hv : validate_date env.now (effectiveExpiration env args) = .error 1 := by
      simp [validate_date, hd]
    simp [generate_encryption_keys, hv]
  · intro hv
    unfold validate_date at hv
    rcases hs : strptimeYMD (effectiveExpiration env args) with _ | d
    · rw [hs] at hv
      exact Except.noConfusion hv
    · rw [hs] at hv
      cases hlt : pyDateTimeLt d env.now with
      | true =>
        have hv' : (if pyDateTimeLt d env.now = true then (Except.error 1 : Except Nat Unit)
            else Except.ok ()) = Except.ok () := hv
        rw [hlt] at hv'
        simp at hv'
      | false => exact ⟨d, rfl, hlt⟩

/-- The sample arguments with an expiration in the past. -/
def pastExpirationArgs : Args := { sampleArgs with expiration := some "2020-01-01" }

/-- Witness for claim C8: an expiration of the first of January 2020, seen
in October 2026, exits with status 1 and no az-backed operation. -/
theorem expiration_rejected_before_network_witness :
    generate_encryption_keys sampleEnv pastExpirationArgs = (.exited 1, []) :=
  (expiration_rejected_before_network sampleEnv pastExpirationArgs).1 ⟨2020, 1, 1, 0⟩ rfl rfl

/-- Intercalating a two-element list of lists places the separator between
the two elements. -/
theorem intercalate_pair (s k v : List Char) :
    List.intercalate s [k, v] = k ++ s ++ v := by
  simp [List.intercalate]

/-- Splitting the rendered pair key=value on the equals sign recovers the
key and the value, when neither contains an equals sign. -/
theorem splitOn_pair (k v : List Char) (hk : '=' ∉ k) (hv : '=' ∉ v) :
    (k ++ '=' :: v).splitOn '=' = [k, v] := by
  have hx : ∀ l ∈ [k, v], '=' ∉ l := by
    intro l hl
    rcases List.mem_cons.mp hl with rfl | hl2
    · exact hk
    · rcases List.mem_cons.mp hl2 with rfl | hl3
      · exact hv
      · cases hl3
  have h := List.splitOn_intercalate [k, v] '=' hx (by simp)
  rw [intercalate_pair] at h
  simpa using h

/-- The `convert_tags` loop over rendered pairs whose keys are new to the
accumulator appends the pairs in order. -/
theorem convertTagsLoop_fresh (ps acc : List (List Char × List Char))
    (heq : ∀ p ∈ ps, '=' ∉ p.1 ∧ '=' ∉ p.2)
    (hkeys : (ps.map Prod.fst).Nodup)
    (hfresh : ∀ p ∈ ps, ∀ q ∈ acc, p.1 ≠ q.1) :
    convertTagsLoop (ps.map (fun p => p.1 ++ '=' :: p.2)) acc = .ok (acc ++ ps) := by
  induction ps generalizing acc with
  | nil => simp [convertTagsLoop]
  | cons p ps ih =>
    have hsp : (p.1 ++ '=' :: p.2).splitOn '=' = [p.1, p.2] :=
      splitOn_pair p.1 p.2 (heq p (List.mem_cons_self p ps)).1
        (heq p (List.mem_cons_self p ps)).2
    have hnodup := List.nodup_cons.mp hkeys
    have hnot : ¬(acc.any (fun q => q.1 == p.1) = true) := by
      simp only [List.any_eq_true]
      rintro ⟨q, hq, hbeq⟩
      exact hfresh p (List.mem_cons_self p ps) q hq (eq_of_beq hbeq).symm
    have hins : dictInsert acc p.1 p.2 = acc ++ [(p.1, p.2)] := by
      unfold dictInsert
      rw [if_neg hnot]
    have hrec := ih (acc ++ [(p.1, p.2)])
      (fun q hq => heq q (List.mem_cons_of_mem p hq))
      hnodup.2
      (by
        intro q' hq' q hq
        rcases List.mem_append.mp hq with h1 | h2
        · exact hfresh q' (List.mem_cons_of_mem p hq') q h1
        · rcases List.mem_cons.mp h2 with rfl | h3
          · intro hEq
            exact hnodup.1 (List.mem_map.mpr ⟨q', hq', hEq⟩)
          · cases h3)
    simp only [List.map_cons, convertTagsLoop, hsp]
    rw [hins, hrec]
    simp

/-- In a pair list with pairwise-distinct keys, looking a key up returns the
value it was paired with. -/
theorem lookup_mem_nodup (ps : List (List Char × List Char))
    (hkeys : (ps.map Prod.fst).Nodup) :
    ∀ p ∈ ps, List.lookup p.1 ps = some p.2 := by
  induction ps with
  | nil =>
    intro p hp
    cases hp
  | cons q ps ih =>
    intro p hp
    have hnodup := List.nodup_cons.mp hkeys
    rcases List.mem_cons.mp hp with rfl | hp2
    · simp [List.lookup]
    · have hne : (p.1 == q.1) = false := by
        refine beq_eq_false_iff_ne.mpr ?_
        intro hEq
        exact hnodup.1 (List.mem_map.mpr ⟨p, hp2, hEq⟩)
      rw [List.lookup, hne]
      exact ih hnodup.2 p hp2

/-- Claim C9: `convert_tags` converts a comma-separated string of key=value
pairs — distinct keys, exactly one equals sign per pair, no comma inside a
key or value — into the dict holding exactly those pairs in order, so each
key maps to its value and re-serialising the dict recovers the original
string verbatim.  In particular the string a=1,b=2 maps to the dict with a
at 1 and b at 2. -/
theorem convert_tags_round_trip (ps : List (List Char × List Char))
    (hne : ps ≠ [])
    (hchars : ∀ p ∈ ps, (',' ∉ p.1 ∧ ',' ∉ p.2) ∧ ('=' ∉ p.1 ∧ '=' ∉ p.2))
    (hkeys : (ps.map Prod.fst).Nodup) :
    convert_tags (serializeTags ps) = .ok ps ∧
    (∀ p ∈ ps, List.lookup p.1 ps = some p.2) := by
  constructor
  · unfold convert_tags
    have hparts : (serializeTags ps).splitOn ',' = ps.map (fun p => p.1 ++ '=' :: p.2) := by
      unfold serializeTags
      refine List.splitOn_intercalate (ps.map (fun p => p.1 ++ '=' :: p.2)) ',' ?_ ?_
      · intro l hl
        obtain ⟨p, hp, rfl⟩ := List.mem_map.mp hl
        intro hmem
        rcases List.mem_append.mp hmem with h1 | h2
        · exact (hchars p hp).1.1 h1
        · rcases List.mem_cons.mp h2 with h3 | h4
          · exact absurd h3 (by decide)
          · exact (hchars p hp).1.2 h4
      · cases ps with
        | nil => exact absurd rfl hne
        | cons a l => simp
    rw [hparts]
    have h := convertTagsLoop_fresh ps []
      (fun p hp => (hchars p hp).2) hkeys
      (by
        intro p hp q hq
        cases hq)
    simpa using h
  · exact lookup_mem_nodup ps hkeys

/-- The pair list for the round-trip instance a=1,b=2. -/
def tagPairs : List (List Char × List Char) := [(['a'], ['1']), (['b'], ['2'])]

/-- Witness for claim C9: the concrete tag string a=1,b=2 converts to the
two-pair dict, and each key looks up to its value. -/
theorem convert_tags_round_trip_witness :
    convert_tags ("a=1,b=2".data) = .ok tagPairs ∧
    List.lookup "a".data tagPairs = some ("1".data) ∧
    List.lookup "b".data tagPairs = some ("2".data) := by
  have h := convert_tags_round_trip tagPairs (by decide) (by decide) (by decide)
  refine ⟨h.1, ?_, ?_⟩
  · exact h.2 ("a".data, "1".data) (by decide)
  · exact h.2 ("b".data, "2".data) (by decide)
